import Mathlib

/-!
Shallow embedding of the risk-management core of this repository
(database/models.py and database/crud.py) and proofs about it.

Machine timestamps (`datetime`) are modelled as natural numbers; SQL NULL
is modelled with `Option`.  Python dictionaries whose relevant keys are a
fixed finite set are modelled as structures of `Option` fields, a `none`
field standing for an absent key.
-/

namespace GerRiscos

/-- The five probability levels of models.py (NivelProbabilidade). -/
inductive NivelProbabilidade
  | MUITO_BAIXA
  | BAIXA
  | MEDIA
  | ALTA
  | MUITO_ALTA
deriving DecidableEq, Repr

/-- The five impact levels of models.py (NivelImpacto). -/
inductive NivelImpacto
  | MUITO_BAIXO
  | BAIXO
  | MODERADO
  | ALTO
  | MUITO_ALTO
deriving DecidableEq, Repr

/-- The four criticality tiers of models.py (NivelCriticidade). -/
inductive NivelCriticidade
  | BAIXO
  | MEDIO_
  | ALTO
  | CRITICO
deriving DecidableEq, Repr

/-- The action-plan statuses of models.py (StatusAcao). -/
inductive StatusAcao
  | NAO_INICIADO
  | EM_ANDAMENTO
  | CONCLUIDO
  | ATRASADO
  | CANCELADO
deriving DecidableEq, Repr

/-- A probability value as it reaches `_calcular_criticidade` at run time:
either one of the five enum members, or any other Python value (for
example the plain strings passed by `importar_de_excel`), which the
lookup dictionary does not map. -/
inductive ProbEntrada
  | nivel (p : NivelProbabilidade)
  | naoMapeada (s : String)
deriving DecidableEq, Repr

/-- An impact value as it reaches `_calcular_criticidade` at run time. -/
inductive ImpactoEntrada
  | nivel (i : NivelImpacto)
  | naoMapeada (s : String)
deriving DecidableEq, Repr

/-- The `prob_valores` dictionary of `RiscoCRUD._calcular_criticidade`. -/
def prob_valores : NivelProbabilidade → Nat
  | .MUITO_BAIXA => 1
  | .BAIXA => 2
  | .MEDIA => 3
  | .ALTA => 4
  | .MUITO_ALTA => 5

/-- The `impacto_valores` dictionary of `RiscoCRUD._calcular_criticidade`. -/
def impacto_valores : NivelImpacto → Nat
  | .MUITO_BAIXO => 1
  | .BAIXO => 2
  | .MODERADO => 3
  | .ALTO => 4
  | .MUITO_ALTO => 5

/-- `prob_valores.get(probabilidade, 3)`: dictionary lookup with default 3. -/
def prob_num : ProbEntrada → Nat
  | .nivel p => prob_valores p
  | .naoMapeada _ => 3

/-- `impacto_valores.get(impacto, 3)`: dictionary lookup with default 3. -/
def impacto_num : ImpactoEntrada → Nat
  | .nivel i => impacto_valores i
  | .naoMapeada _ => 3

/-- `RiscoCRUD._calcular_criticidade` (crud.py lines 55-85): the criticality
scorer.  `produto = prob_num * impacto_num`; tiers by inclusive upper
bounds 4, 9, 16, else CRITICO. -/
def calcular_criticidade (probabilidade : ProbEntrada) (impacto : ImpactoEntrada) :
    NivelCriticidade :=
  let produto := prob_num probabilidade * impacto_num impacto
  if produto ≤ 4 then NivelCriticidade.BAIXO
  else if produto ≤ 9 then NivelCriticidade.MEDIO_
  else if produto ≤ 16 then NivelCriticidade.ALTO
  else NivelCriticidade.CRITICO

/-- Ordinal rank of a criticality tier: BAIXO < MEDIO_ < ALTO < CRITICO. -/
def crit_valor : NivelCriticidade → Nat
  | .BAIXO => 0
  | .MEDIO_ => 1
  | .ALTO => 2
  | .CRITICO => 3

/-- C1: the criticality scorer maps product ≤ 4 to Low, 5-9 to Medium,
10-16 to High and 17-25 to Critical, for every pair of mapped levels; in
particular score(1,1)=Low, score(3,3)=Medium, score(5,5)=Critical, and at
the boundaries product 9 gives Medium, 10 and 16 give High, and every
product of at least 17 (such as 20 = 4*5) gives Critical. -/
theorem claim_C1_tiering :
    (∀ (p : NivelProbabilidade) (i : NivelImpacto),
      (prob_valores p * impacto_valores i ≤ 4 →
        calcular_criticidade (.nivel p) (.nivel i) = .BAIXO) ∧
      (5 ≤ prob_valores p * impacto_valores i → prob_valores p * impacto_valores i ≤ 9 →
        calcular_criticidade (.nivel p) (.nivel i) = .MEDIO_) ∧
      (10 ≤ prob_valores p * impacto_valores i → prob_valores p * impacto_valores i ≤ 16 →
        calcular_criticidade (.nivel p) (.nivel i) = .ALTO) ∧
      (17 ≤ prob_valores p * impacto_valores i → prob_valores p * impacto_valores i ≤ 25 →
        calcular_criticidade (.nivel p) (.nivel i) = .CRITICO)) ∧
    calcular_criticidade (.nivel .MUITO_BAIXA) (.nivel .MUITO_BAIXO) = .BAIXO ∧
    calcular_criticidade (.nivel .MEDIA) (.nivel .MODERADO) = .MEDIO_ ∧
    calcular_criticidade (.nivel .MUITO_ALTA) (.nivel .MUITO_ALTO) = .CRITICO ∧
    calcular_criticidade (.nivel .BAIXA) (.nivel .MUITO_ALTO) = .ALTO ∧
    calcular_criticidade (.nivel .ALTA) (.nivel .ALTO) = .ALTO ∧
    calcular_criticidade (.nivel .ALTA) (.nivel .MUITO_ALTO) = .CRITICO := by
  constructor
  · intro p i
    cases p <;> cases i <;> decide
  · decide

/-- Witness for C1: the tiering theorem applied at probability and impact
both at their lowest level, with the hypothesis product ≤ 4 discharged. -/
theorem claim_C1_tiering_witness :
    calcular_criticidade (.nivel .MUITO_BAIXA) (.nivel .MUITO_BAIXO) = .BAIXO :=
  (claim_C1_tiering.1 .MUITO_BAIXA .MUITO_BAIXO).1 (by decide)

/-- C6: an unmapped probability or impact level does not make the scorer
fail; it is looked up with default 3, so the result is exactly what the
middle levels (Média, Moderado, both of value 3) would give, and a tier is
always returned. -/
theorem claim_C6_unmapped_default :
    ∀ (s t : String) (p : ProbEntrada) (i : ImpactoEntrada),
      prob_num (.naoMapeada s) = 3 ∧
      impacto_num (.naoMapeada t) = 3 ∧
      calcular_criticidade (.naoMapeada s) i = calcular_criticidade (.nivel .MEDIA) i ∧
      calcular_criticidade p (.naoMapeada t) = calcular_criticidade p (.nivel .MODERADO) := by
  intro s t p i
  refine ⟨rfl, rfl, rfl, rfl⟩

/-- C9: the scorer is monotonically non-decreasing in both arguments, in
the criticality ordering Low < Medium < High < Critical encoded by
`crit_valor`. -/
theorem claim_C9_monotone :
    ∀ (p p' : NivelProbabilidade) (i i' : NivelImpacto),
      prob_valores p ≤ prob_valores p' →
      impacto_valores i ≤ impacto_valores i' →
      crit_valor (calcular_criticidade (.nivel p) (.nivel i)) ≤
        crit_valor (calcular_criticidade (.nivel p') (.nivel i')) := by
  intro p p' i i'
  cases p <;> cases p' <;> cases i <;> cases i' <;> decide

/-- Witness for C9: monotonicity applied between (Baixa, Baixo) and
(Alta, Alto), with both ordering hypotheses discharged. -/
theorem claim_C9_monotone_witness :
    crit_valor (calcular_criticidade (.nivel .BAIXA) (.nivel .BAIXO)) ≤
      crit_valor (calcular_criticidade (.nivel .ALTA) (.nivel .ALTO)) :=
  claim_C9_monotone .BAIXA .ALTA .BAIXO .ALTO (by decide) (by decide)

/-- A row of the `riscos` table (models.py, class Risco), restricted to the
columns the verified operations read or write.  The omitted columns (eap,
fonte, categoria, tipo_impacto, the quantitative fields, approval and the
remaining audit fields) do not interact with any verified property; like
the four text columns kept here they are nullable=False.  `probabilidade`
and `impacto` are `ProbEntrada`/`ImpactoEntrada` because no layer of
crud.py validates that a stored value is one of the enum members. -/
structure Risco where
  id : Nat
  codigo_risco : String
  titulo_evento : String
  descricao_evento : String
  causas : String
  consequencias : String
  probabilidade : ProbEntrada
  impacto : ImpactoEntrada
  criticidade : NivelCriticidade
  ativo : Bool
  data_identificacao : Option Nat
  criado_por_id : Option Nat
  atualizado_por_id : Option Nat
  atualizado_em : Option Nat
deriving DecidableEq, Repr

/-- A row of `avaliacoes_historicas` (models.py, class AvaliacaoHistorica). -/
structure AvaliacaoHistorica where
  risco_id : Nat
  probabilidade_anterior : ProbEntrada
  probabilidade_nova : ProbEntrada
  impacto_anterior : ImpactoEntrada
  impacto_novo : ImpactoEntrada
  criticidade_anterior : NivelCriticidade
  criticidade_nova : NivelCriticidade
  motivo_mudanca : String
  avaliado_por_id : Nat
deriving DecidableEq, Repr

/-- A row of `planos_acao` (models.py, class PlanoAcao), restricted to the
columns the verified operations read or write. -/
structure PlanoAcao where
  id : Nat
  risco_id : Nat
  status : StatusAcao
  percentual_conclusao : Nat
  data_conclusao : Option Nat
  atrasado : Bool
  atualizado_em : Option Nat
  atualizado_por_id : Option Nat
deriving DecidableEq, Repr

/-- A row of `atualizacoes_planos_acao` (models.py, class
AtualizacaoPlanoAcao). -/
structure AtualizacaoPlanoAcao where
  plano_acao_id : Nat
  status_anterior : StatusAcao
  status_novo : StatusAcao
  percentual_anterior : Nat
  percentual_novo : Nat
  descricao_atualizacao : String
  atualizado_por_id : Nat
deriving DecidableEq, Repr

/-- The database state reachable through the verified CRUD operations. -/
structure Sessao where
  riscos : List Risco
  historicos : List AvaliacaoHistorica
  planos : List PlanoAcao
  atualizacoes_planos : List AtualizacaoPlanoAcao
deriving DecidableEq, Repr

/-- `session.query(Risco).filter(Risco.id == risco_id).first()`. -/
def findRisco (l : List Risco) (risco_id : Nat) : Option Risco :=
  l.find? (fun r => r.id == risco_id)

/-- Mutating the ORM object returned by `.first()`: replace the first row
of matching id. -/
def substituiRisco (l : List Risco) (risco_id : Nat) (novo : Risco) : List Risco :=
  match l with
  | [] => []
  | x :: xs => if x.id == risco_id then novo :: xs else x :: substituiRisco xs risco_id novo

/-- `session.query(PlanoAcao).filter(PlanoAcao.id == plano_id).first()`. -/
def findPlano (l : List PlanoAcao) (plano_id : Nat) : Option PlanoAcao :=
  l.find? (fun p => p.id == plano_id)

/-- Replace the first plan row of matching id. -/
def substituiPlano (l : List PlanoAcao) (plano_id : Nat) (novo : PlanoAcao) : List PlanoAcao :=
  match l with
  | [] => []
  | x :: xs => if x.id == plano_id then novo :: xs else x :: substituiPlano xs plano_id novo

/-- The `risco_data` dictionary accepted by `RiscoCRUD.criar_risco`,
restricted to the keys the verified behaviour depends on; a `none` field
is an absent key. -/
structure RiscoData where
  codigo_risco : Option String
  titulo_evento : Option String
  descricao_evento : Option String
  causas : Option String
  consequencias : Option String
  probabilidade : Option ProbEntrada
  impacto : Option ImpactoEntrada
  criticidade : Option NivelCriticidade
deriving DecidableEq, Repr

/-- The only failure the modelled persistence layer produces: a NOT NULL
column received no value at flush time (SQLAlchemy raises IntegrityError;
no CRUD function of crud.py performs any validation of its own). -/
inductive ErroBanco
  | notNull
deriving DecidableEq, Repr

/-- `str(n).zfill(3)`. -/
def zfill3 (t : String) : String :=
  String.mk (List.replicate (3 - t.length) '0') ++ t

/-- `f"RSK-{str(ultimo_id + 1).zfill(3)}"`. -/
def gerarCodigo (ultimo_id : Nat) : String :=
  "RSK-" ++ zfill3 (toString (ultimo_id + 1))

/-- `session.query(func.max(Risco.id)).scalar() or 0`. -/
def maiorId (l : List Risco) : Nat :=
  (l.map (fun r => r.id)).foldr max 0

/-- `RiscoCRUD.criar_risco` (crud.py lines 21-53).  Generates the unique
code when the key is absent or falsy, computes the criticality when the
key is absent and both probability and impact are supplied, stamps
`criado_por_id` and `data_identificacao = datetime.now()`, then constructs
the row and flushes it; the flush fails with a NOT NULL database error
when a required column is absent. -/
def criar_risco (s : Sessao) (d : RiscoData) (criado_por_id : Nat) (agora : Nat) :
    Except ErroBanco (Sessao × Risco) :=
  let ultimo_id := maiorId s.riscos
  let codigo :=
    match d.codigo_risco with
    | some c => if c = "" then gerarCodigo ultimo_id else c
    | none => gerarCodigo ultimo_id
  let criticidade :=
    match d.criticidade with
    | some c => some c
    | none =>
      match d.probabilidade, d.impacto with
      | some p, some i => some (calcular_criticidade p i)
      | _, _ => none
  match d.titulo_evento, d.descricao_evento, d.causas, d.consequencias,
      d.probabilidade, d.impacto, criticidade with
  | some t, some de, some ca, some co, some p, some i, some cr =>
    let risco : Risco :=
      { id := ultimo_id + 1
        codigo_risco := codigo
        titulo_evento := t
        descricao_evento := de
        causas := ca
        consequencias := co
        probabilidade := p
        impacto := i
        criticidade := cr
        ativo := true
        data_identificacao := some agora
        criado_por_id := some criado_por_id
        atualizado_por_id := none
        atualizado_em := none }
    Except.ok ({ s with riscos := s.riscos ++ [risco] }, risco)
  | _, _, _, _, _, _, _ => Except.error ErroBanco.notNull

/-- The `dados_atualizacao` dictionary accepted by
`RiscoCRUD.atualizar_risco`, restricted to the keys the verified behaviour
depends on; a `none` field is an absent key. -/
structure DadosAtualizacao where
  probabilidade : Option ProbEntrada
  impacto : Option ImpactoEntrada
  criticidade : Option NivelCriticidade
  motivo_mudanca : Option String
deriving DecidableEq, Repr

/-- `RiscoCRUD._salvar_historico_avaliacao` (crud.py lines 240-254): the
history row built from the pre-update risk and the update dictionary,
`novos_dados.get(k, <current value>)` for each new field. -/
def salvar_historico_avaliacao (risco : Risco) (novos_dados : DadosAtualizacao)
    (usuario_id : Nat) : AvaliacaoHistorica :=
  { risco_id := risco.id
    probabilidade_anterior := risco.probabilidade
    probabilidade_nova := novos_dados.probabilidade.getD risco.probabilidade
    impacto_anterior := risco.impacto
    impacto_novo := novos_dados.impacto.getD risco.impacto
    criticidade_anterior := risco.criticidade
    criticidade_nova := novos_dados.criticidade.getD risco.criticidade
    motivo_mudanca := novos_dados.motivo_mudanca.getD "Atualização"
    avaliado_por_id := usuario_id }

/-- `RiscoCRUD.atualizar_risco` (crud.py lines 196-238).  Returns `none`
when the id is unknown; otherwise appends one history row when history is
requested and an assessment key is present, applies the supplied fields,
recomputes the criticality when probability or impact was supplied, and
stamps the audit fields. -/
def atualizar_risco (s : Sessao) (risco_id : Nat) (dados : DadosAtualizacao)
    (atualizado_por_id : Nat) (historia : Bool) (agora : Nat) :
    Sessao × Option Risco :=
  match findRisco s.riscos risco_id with
  | none => (s, none)
  | some risco =>
    let historicos' :=
      if historia &&
          (dados.probabilidade.isSome || dados.impacto.isSome || dados.criticidade.isSome)
      then s.historicos ++ [salvar_historico_avaliacao risco dados atualizado_por_id]
      else s.historicos
    let r1 : Risco :=
      { risco with
        probabilidade := dados.probabilidade.getD risco.probabilidade
        impacto := dados.impacto.getD risco.impacto
        criticidade := dados.criticidade.getD risco.criticidade }
    let r2 : Risco :=
      if dados.probabilidade.isSome || dados.impacto.isSome
      then { r1 with criticidade := calcular_criticidade r1.probabilidade r1.impacto }
      else r1
    let r3 : Risco :=
      { r2 with atualizado_por_id := some atualizado_por_id, atualizado_em := some agora }
    ({ s with riscos := substituiRisco s.riscos risco_id r3, historicos := historicos' },
      some r3)

/-- `RiscoCRUD.excluir_risco` (crud.py lines 256-264): soft delete.
Returns false when the id is unknown, otherwise sets `ativo = False` and
returns true. -/
def excluir_risco (s : Sessao) (risco_id : Nat) : Sessao × Bool :=
  match findRisco s.riscos risco_id with
  | none => (s, false)
  | some risco =>
    ({ s with riscos := substituiRisco s.riscos risco_id { risco with ativo := false } },
      true)

/-- `PlanoAcao.is_atrasado` (models.py lines 290-294): a plan is overdue
when it has a completion date, its status is not CONCLUIDO and the current
time is past that date; otherwise false.  (A `datetime` object is always
truthy, so the Python guard `if self.data_conclusao` is exactly a
non-NULL test.) -/
def is_atrasado (agora : Nat) (p : PlanoAcao) : Bool :=
  match p.data_conclusao with
  | some d => if p.status ≠ StatusAcao.CONCLUIDO then decide (agora > d) else false
  | none => false

/-- The `dados_atualizacao` dictionary accepted by
`PlanoAcaoCRUD.atualizar_plano_acao`, restricted to the keys the verified
behaviour depends on; `data_conclusao = some v` is a present key whose
value `v` may itself be NULL. -/
structure DadosPlano where
  status : Option StatusAcao
  percentual_conclusao : Option Nat
  data_conclusao : Option (Option Nat)
  descricao_atualizacao : Option String
deriving DecidableEq, Repr

/-- `PlanoAcaoCRUD._salvar_historico_plano` (crud.py lines 395-410). -/
def salvar_historico_plano (plano : PlanoAcao) (novos_dados : DadosPlano)
    (usuario_id : Nat) : AtualizacaoPlanoAcao :=
  { plano_acao_id := plano.id
    status_anterior := plano.status
    status_novo := novos_dados.status.getD plano.status
    percentual_anterior := plano.percentual_conclusao
    percentual_novo := novos_dados.percentual_conclusao.getD plano.percentual_conclusao
    descricao_atualizacao := novos_dados.descricao_atualizacao.getD "Atualização automática"
    atualizado_por_id := usuario_id }

/-- `PlanoAcaoCRUD.atualizar_plano_acao` (crud.py lines 365-393).  Returns
`none` when the id is unknown; otherwise appends one history row when
history is requested and a status or percentage key is present, applies
the supplied fields, recomputes `atrasado = plano.is_atrasado()` from the
post-update fields, and stamps the audit fields. -/
def atualizar_plano_acao (s : Sessao) (plano_id : Nat) (dados : DadosPlano)
    (atualizado_por_id : Nat) (historia : Bool) (agora : Nat) :
    Sessao × Option PlanoAcao :=
  match findPlano s.planos plano_id with
  | none => (s, none)
  | some plano =>
    let atualizacoes' :=
      if historia && (dados.status.isSome || dados.percentual_conclusao.isSome)
      then s.atualizacoes_planos ++ [salvar_historico_plano plano dados atualizado_por_id]
      else s.atualizacoes_planos
    let q1 : PlanoAcao :=
      { plano with
        status := dados.status.getD plano.status
        percentual_conclusao := dados.percentual_conclusao.getD plano.percentual_conclusao
        data_conclusao := dados.data_conclusao.getD plano.data_conclusao }
    let q2 : PlanoAcao := { q1 with atrasado := is_atrasado agora q1 }
    let q3 : PlanoAcao :=
      { q2 with atualizado_por_id := some atualizado_por_id, atualizado_em := some agora }
    let s' : Sessao :=
      { s with
        planos := substituiPlano s.planos plano_id q3
        atualizacoes_planos := atualizacoes' }
    (s', some q3)

/-- `PlanoAcaoCRUD.obter_planos_atrasados` (crud.py lines 412-426):
`data_conclusao <= now - tolerance` (a NULL date never satisfies a SQL
comparison) and status neither CONCLUIDO nor CANCELADO.  The final
ORDER BY data_conclusao only permutes the rows; the verified properties
observe only the number of rows, so the sort is omitted. -/
def obter_planos_atrasados (s : Sessao) (agora : Nat) (dias_tolerancia : Nat) :
    List PlanoAcao :=
  let data_limite := agora - dias_tolerancia
  s.planos.filter (fun p =>
    match p.data_conclusao with
    | some d =>
      decide (d ≤ data_limite) && decide (p.status ≠ StatusAcao.CONCLUIDO) &&
        decide (p.status ≠ StatusAcao.CANCELADO)
    | none => false)

/-- Round-half-to-even of a rational to an integer, the rounding mode of
Python's `round`. -/
def roundHalfEven (q : ℚ) : ℤ :=
  if q - ⌊q⌋ < 1 / 2 then ⌊q⌋
  else if q - ⌊q⌋ > 1 / 2 then ⌊q⌋ + 1
  else if ⌊q⌋ % 2 = 0 then ⌊q⌋ else ⌊q⌋ + 1

/-- `round(x, 1)`: rounding to one decimal place, modelled exactly on the
rationals (the float representation error of CPython is not modelled). -/
def round1 (q : ℚ) : ℚ :=
  (roundHalfEven (q * 10) : ℚ) / 10

/-- The dashboard aggregate returned by
`PlanoAcaoCRUD.obter_dashboard_planos`, with the status dictionary as a
count function.  The responsible-party grouping joins the user table,
which is outside the modelled state and outside every verified property,
so it is omitted. -/
structure DashboardPlanos where
  planos_por_status : StatusAcao → Nat
  taxa_conclusao_prazo : ℚ
  total_atrasados : Nat

/-- `PlanoAcaoCRUD.obter_dashboard_planos` (crud.py lines 428-468).  The
on-time numerator counts CONCLUIDO plans satisfying the SQL condition
`data_conclusao IS NULL OR atualizado_em <= data_conclusao` (a NULL
`atualizado_em` fails the comparison); the rate is numerator over total
CONCLUIDO plans times 100 when that total is positive, else 0, rounded to
one decimal. -/
def obter_dashboard_planos (s : Sessao) (agora : Nat) : DashboardPlanos :=
  let total_concluidos :=
    (s.planos.filter (fun p => p.status == StatusAcao.CONCLUIDO)).length
  let concluidos_no_prazo :=
    (s.planos.filter (fun p =>
      p.status == StatusAcao.CONCLUIDO &&
        (match p.data_conclusao with
         | none => true
         | some dc =>
           match p.atualizado_em with
           | none => false
           | some ae => decide (ae ≤ dc)))).length
  let taxa_sucesso : ℚ :=
    if total_concluidos > 0
    then (concluidos_no_prazo : ℚ) / (total_concluidos : ℚ) * 100
    else 0
  { planos_por_status := fun st => (s.planos.filter (fun p => p.status == st)).length
    taxa_conclusao_prazo := round1 taxa_sucesso
    total_atrasados := (obter_planos_atrasados s agora 0).length }

/-- The on-time completion rate exactly as the specification words it: a
completed plan is on time when its last update timestamp is less than or
equal to its end date (so a plan without an end date is not counted).
Written from the spec, to be compared with `obter_dashboard_planos`. -/
def taxa_conclusao_prazo_espec (s : Sessao) : ℚ :=
  let total := (s.planos.filter (fun p => p.status == StatusAcao.CONCLUIDO)).length
  let no_prazo :=
    (s.planos.filter (fun p =>
      p.status == StatusAcao.CONCLUIDO &&
        (match p.atualizado_em, p.data_conclusao with
         | some ae, some dc => decide (ae ≤ dc)
         | _, _ => false))).length
  if total > 0 then round1 ((no_prazo : ℚ) / (total : ℚ) * 100) else 0

/-- The overdue predicate exactly as the claim words it: end date in the
past and status neither CONCLUIDO nor CANCELADO.  Written from the spec,
to be compared with `is_atrasado`. -/
def is_atrasado_espec (agora : Nat) (p : PlanoAcao) : Bool :=
  (match p.data_conclusao with
   | some d => decide (agora > d)
   | none => false) &&
    decide (p.status ≠ StatusAcao.CONCLUIDO) && decide (p.status ≠ StatusAcao.CANCELADO)

/-- The overdue computation returns true exactly when the plan has a
completion date lying strictly before the current time and its status is
not CONCLUIDO. -/
theorem is_atrasado_eq_true_iff (agora : Nat) (p : PlanoAcao) :
    is_atrasado agora p = true ↔
      ∃ d, p.data_conclusao = some d ∧ agora > d ∧ p.status ≠ StatusAcao.CONCLUIDO := by
  cases h : p.data_conclusao with
  | none => simp [is_atrasado, h]
  | some d =>
    by_cases hs : p.status = StatusAcao.CONCLUIDO
    · simp [is_atrasado, h, hs]
    · simp [is_atrasado, h, hs]

/-- C10: a plan whose completion date is unset is never marked overdue,
whatever its status and the current time. -/
theorem claim_C10_sem_data_nunca_atrasado (agora i rid perc : Nat) (st : StatusAcao)
    (atr : Bool) (ae api : Option Nat) :
    is_atrasado agora
      { id := i, risco_id := rid, status := st, percentual_conclusao := perc,
        data_conclusao := none, atrasado := atr, atualizado_em := ae,
        atualizado_por_id := api } = false := rfl

/-- A cancelled plan whose completion date has passed. -/
def plano_cancelado : PlanoAcao :=
  { id := 1, risco_id := 1, status := StatusAcao.CANCELADO, percentual_conclusao := 40,
    data_conclusao := some 10, atrasado := false, atualizado_em := some 0,
    atualizado_por_id := none }

/-- A session holding only `plano_cancelado`. -/
def sessao_c3 : Sessao :=
  { riscos := [], historicos := [], planos := [plano_cancelado], atualizacoes_planos := [] }

/-- An update dictionary with no keys. -/
def dados_plano_vazio : DadosPlano :=
  { status := none, percentual_conclusao := none, data_conclusao := none,
    descricao_atualizacao := none }

/-- Counterexample to C3: at time 20 the cancelled plan with end date 10 is
recomputed by the update operation to `atrasado = true`, although the
claim's predicate (end date past and status neither CONCLUIDO nor
CANCELADO) is false for it: the code does not exempt cancelled plans. -/
theorem claim_C3_counterexample :
    ((atualizar_plano_acao sessao_c3 1 dados_plano_vazio 2 true 20).2.map
        (fun p => p.atrasado) = some true) ∧
    plano_cancelado.status = StatusAcao.CANCELADO ∧
    is_atrasado_espec 20 plano_cancelado = false := by
  decide

/-- C3 amended: after `atualizar_plano_acao` applies an update, the stored
flag is true exactly when the post-update completion date is set and past
and the post-update status is not CONCLUIDO (a cancelled plan with a past
end date is marked overdue); in particular a plan with status CONCLUIDO
is never overdue. -/
theorem claim_C3_amended :
    (∀ (s : Sessao) (pid : Nat) (dados : DadosPlano) (uid : Nat) (historia : Bool)
        (agora : Nat) (p' : PlanoAcao),
      (atualizar_plano_acao s pid dados uid historia agora).2 = some p' →
      (p'.atrasado = true ↔
        ∃ d, p'.data_conclusao = some d ∧ agora > d ∧ p'.status ≠ StatusAcao.CONCLUIDO)) ∧
    (∀ (agora : Nat) (p : PlanoAcao), p.status = StatusAcao.CONCLUIDO →
      is_atrasado agora p = false) := by
  constructor
  · intro s pid dados uid historia agora p' hok
    unfold atualizar_plano_acao at hok
    cases hf : findPlano s.planos pid with
    | none => rw [hf] at hok; simp at hok
    | some plano =>
      rw [hf] at hok
      simp only [Option.some.injEq] at hok
      subst hok
      exact is_atrasado_eq_true_iff agora _
  · intro agora p hs
    cases h : p.data_conclusao with
    | none => simp [is_atrasado, h]
    | some d => simp [is_atrasado, h, hs]

/-- The plan row produced by the witness update of C3. -/
def plano_w3 : PlanoAcao :=
  { id := 1, risco_id := 1, status := StatusAcao.EM_ANDAMENTO, percentual_conclusao := 10,
    data_conclusao := some 10, atrasado := false, atualizado_em := some 0,
    atualizado_por_id := none }

/-- A session holding only `plano_w3`. -/
def sessao_w3 : Sessao :=
  { riscos := [], historicos := [], planos := [plano_w3], atualizacoes_planos := [] }

/-- The expected post-update row of the C3 witness. -/
def plano_w3_resultado : PlanoAcao :=
  { id := 1, risco_id := 1, status := StatusAcao.EM_ANDAMENTO, percentual_conclusao := 10,
    data_conclusao := some 10, atrasado := true, atualizado_em := some 20,
    atualizado_por_id := some 2 }

/-- Witness for the amended C3: the equivalence instantiated on a concrete
update of an in-progress plan past its end date, the update-result
hypothesis discharged by computation. -/
theorem claim_C3_amended_witness :
    plano_w3_resultado.atrasado = true ↔
      ∃ d, plano_w3_resultado.data_conclusao = some d ∧ 20 > d ∧
        plano_w3_resultado.status ≠ StatusAcao.CONCLUIDO :=
  claim_C3_amended.1 sessao_w3 1 dados_plano_vazio 2 true 20 plano_w3_resultado (by decide)

/-- Looking a risk up after replacing the first row of its id yields the
replacement, provided the replacement keeps that id. -/
theorem findRisco_substituiRisco (l : List Risco) (rid : Nat) (novo : Risco)
    (h : (findRisco l rid).isSome) (hid : novo.id = rid) :
    findRisco (substituiRisco l rid novo) rid = some novo := by
  induction l with
  | nil => simp [findRisco] at h
  | cons x xs ih =>
    cases hx : (x.id == rid) with
    | true =>
      simp [findRisco, substituiRisco, hx, List.find?_cons, hid]
    | false =>
      have h' : (findRisco xs rid).isSome := by
        simpa [findRisco, List.find?_cons, hx] using h
      simpa [findRisco, substituiRisco, hx, List.find?_cons] using ih h'

/-- On a session in which the id is found, `excluir_risco` replaces that
row by its deactivated copy and returns true. -/
theorem excluir_risco_encontrado (s : Sessao) (rid : Nat) (r : Risco)
    (h : findRisco s.riscos rid = some r) :
    excluir_risco s rid =
      ({ s with riscos := substituiRisco s.riscos rid { r with ativo := false } }, true) := by
  simp [excluir_risco, h]

/-- An already-deactivated risk. -/
def risco_inativo : Risco :=
  { id := 1, codigo_risco := "RSK-001", titulo_evento := "t", descricao_evento := "d",
    causas := "c", consequencias := "q", probabilidade := ProbEntrada.nivel .MEDIA,
    impacto := ImpactoEntrada.nivel .MODERADO, criticidade := NivelCriticidade.MEDIO_,
    ativo := false, data_identificacao := some 0, criado_por_id := some 1,
    atualizado_por_id := none, atualizado_em := none }

/-- A session holding only `risco_inativo`. -/
def sessao_c5 : Sessao :=
  { riscos := [risco_inativo], historicos := [], planos := [], atualizacoes_planos := [] }

/-- Counterexample to C5: deactivating a risk that is already inactive
returns true, not false as the claim states. -/
theorem claim_C5_counterexample :
    risco_inativo.ativo = false ∧ (excluir_risco sessao_c5 1).2 = true := by
  decide

/-- C5 amended: `excluir_risco` returns false only when the id is unknown
(and then leaves the session unchanged); on any existing risk, active or
already inactive, it sets the active flag to false and returns true, and
it never raises an exception (it is a total function).  It is idempotent
on the stored state: after a second call on the same risk the flag is
still false, but the second call also returns true. -/
theorem claim_C5_amended (s : Sessao) (rid : Nat) :
    (findRisco s.riscos rid = none → excluir_risco s rid = (s, false)) ∧
    (∀ r, findRisco s.riscos rid = some r →
      (excluir_risco s rid).2 = true ∧
      findRisco (excluir_risco s rid).1.riscos rid = some { r with ativo := false } ∧
      (excluir_risco (excluir_risco s rid).1 rid).2 = true ∧
      findRisco (excluir_risco (excluir_risco s rid).1 rid).1.riscos rid =
        some { r with ativo := false }) := by
  constructor
  · intro h
    simp [excluir_risco, h]
  · intro r h
    have hid : r.id = rid := by
      have := List.find?_some h
      simpa using this
    have e1 := excluir_risco_encontrado s rid r h
    have h1 : findRisco (excluir_risco s rid).1.riscos rid = some { r with ativo := false } := by
      rw [e1]
      exact findRisco_substituiRisco s.riscos rid _ (by simp [h]) hid
    have e2 := excluir_risco_encontrado (excluir_risco s rid).1 rid { r with ativo := false } h1
    refine ⟨by rw [e1], h1, by rw [e2], ?_⟩
    rw [e2]
    exact findRisco_substituiRisco _ rid _ (by simp [h1]) hid

/-- An active risk used by the C5 witness. -/
def risco_w5 : Risco :=
  { risco_inativo with id := 2, codigo_risco := "RSK-002", ativo := true }

/-- A session holding only `risco_w5`. -/
def sessao_w5 : Sessao :=
  { riscos := [risco_w5], historicos := [], planos := [], atualizacoes_planos := [] }

/-- Witness for the amended C5: the theorem instantiated on a session with
one active risk, the lookup hypothesis discharged by computation. -/
theorem claim_C5_amended_witness :
    (excluir_risco sessao_w5 2).2 = true ∧
    findRisco (excluir_risco sessao_w5 2).1.riscos 2 = some { risco_w5 with ativo := false } ∧
    (excluir_risco (excluir_risco sessao_w5 2).1 2).2 = true ∧
    findRisco (excluir_risco (excluir_risco sessao_w5 2).1 2).1.riscos 2 =
      some { risco_w5 with ativo := false } :=
  (claim_C5_amended sessao_w5 2).2 risco_w5 (by decide)

/-- A risk assessed at (Alta, Muito alto), criticality Crítico. -/
def risco_c2 : Risco :=
  { id := 1, codigo_risco := "RSK-001", titulo_evento := "Evento",
    descricao_evento := "Desc", causas := "Causa", consequencias := "Cons",
    probabilidade := ProbEntrada.nivel .ALTA, impacto := ImpactoEntrada.nivel .MUITO_ALTO,
    criticidade := NivelCriticidade.CRITICO, ativo := true, data_identificacao := some 0,
    criado_por_id := some 1, atualizado_por_id := none, atualizado_em := none }

/-- A session holding only `risco_c2`. -/
def sessao_c2 : Sessao :=
  { riscos := [risco_c2], historicos := [], planos := [], atualizacoes_planos := [] }

/-- The update dictionary containing only the key impacto = Baixo. -/
def dados_c2 : DadosAtualizacao :=
  { probabilidade := none, impacto := some (ImpactoEntrada.nivel .BAIXO),
    criticidade := none, motivo_mudanca := none }

/-- C2, evaluated at the failing input: updating the risk with the single
key impacto = Baixo creates exactly one history row whose prior fields and
new probability and impact match the claim, but whose criticidade_nova is
the stale pre-update tier Crítico, while the risk's post-update
criticality is the recomputed Médio (product 4*2 = 8): the row's new
fields do not equal the risk's post-update fields. -/
theorem claim_C2_historico_divergente :
    ((atualizar_risco sessao_c2 1 dados_c2 7 true 100).1.historicos.map
        (fun h => (h.risco_id, h.probabilidade_anterior, h.probabilidade_nova,
          h.impacto_anterior, h.impacto_novo, h.criticidade_anterior, h.criticidade_nova)) =
      [(1, ProbEntrada.nivel .ALTA, ProbEntrada.nivel .ALTA,
        ImpactoEntrada.nivel .MUITO_ALTO, ImpactoEntrada.nivel .BAIXO,
        NivelCriticidade.CRITICO, NivelCriticidade.CRITICO)]) ∧
    ((atualizar_risco sessao_c2 1 dados_c2 7 true 100).2.map
        (fun r => (r.probabilidade, r.impacto, r.criticidade)) =
      some (ProbEntrada.nivel .ALTA, ImpactoEntrada.nivel .BAIXO,
        NivelCriticidade.MEDIO_)) :=
  ⟨rfl, rfl⟩

/-- C4: criticality stays consistent with the stored (probability, impact)
pair.  Creation without an explicit criticidade key stores the scorer's
value, and every update whose dictionary carries a probability or impact
key leaves the risk with criticality recomputed from its post-update
probability and impact. -/
theorem claim_C4_consistencia :
    (∀ (s : Sessao) (d : RiscoData) (uid agora : Nat) (s' : Sessao) (r : Risco),
      d.criticidade = none →
      criar_risco s d uid agora = Except.ok (s', r) →
      r.criticidade = calcular_criticidade r.probabilidade r.impacto) ∧
    (∀ (s : Sessao) (rid : Nat) (dados : DadosAtualizacao) (uid : Nat) (historia : Bool)
        (agora : Nat) (r' : Risco),
      (dados.probabilidade.isSome ∨ dados.impacto.isSome) →
      (atualizar_risco s rid dados uid historia agora).2 = some r' →
      r'.criticidade = calcular_criticidade r'.probabilidade r'.impacto) := by
  constructor
  · intro s d uid agora s' r hc hok
    rcases d with ⟨cod, t, de, ca, co, pb, im, cr⟩
    simp only at hc
    subst hc
    cases t <;> cases de <;> cases ca <;> cases co <;> cases pb <;> cases im <;>
      simp only [criar_risco] at hok <;> cases hok <;> rfl
  · intro s rid dados uid historia agora r' hd hok
    have hcond : (dados.probabilidade.isSome || dados.impacto.isSome) = true := by
      rcases hd with h | h <;> simp [h]
    unfold atualizar_risco at hok
    cases hf : findRisco s.riscos rid with
    | none => rw [hf] at hok; simp at hok
    | some risco =>
      rw [hf] at hok
      simp only [hcond, if_true] at hok
      simp only [Option.some.injEq] at hok
      subst hok
      rfl

/-- Witness data for C4: a creation dictionary with all required fields
(probability Alta, impact Muito alto) and no criticidade key. -/
def dados_w4 : RiscoData :=
  { codigo_risco := none, titulo_evento := some "Evento", descricao_evento := some "Desc",
    causas := some "Causa", consequencias := some "Cons",
    probabilidade := some (ProbEntrada.nivel .ALTA),
    impacto := some (ImpactoEntrada.nivel .MUITO_ALTO), criticidade := none }

/-- The empty session. -/
def sessao_vazia : Sessao :=
  { riscos := [], historicos := [], planos := [], atualizacoes_planos := [] }

/-- The risk the C4 witness creation stores. -/
def risco_w4 : Risco :=
  { id := 1, codigo_risco := "RSK-001", titulo_evento := "Evento",
    descricao_evento := "Desc", causas := "Causa", consequencias := "Cons",
    probabilidade := ProbEntrada.nivel .ALTA, impacto := ImpactoEntrada.nivel .MUITO_ALTO,
    criticidade := NivelCriticidade.CRITICO, ativo := true, data_identificacao := some 50,
    criado_por_id := some 1, atualizado_por_id := none, atualizado_em := none }

/-- Witness for C4: the creation part instantiated on a concrete dictionary
in the empty session, both hypotheses discharged by computation. -/
theorem claim_C4_consistencia_witness :
    risco_w4.criticidade = calcular_criticidade risco_w4.probabilidade risco_w4.impacto :=
  claim_C4_consistencia.1 sessao_vazia dados_w4 1 50
    ({ sessao_vazia with riscos := [risco_w4] }) risco_w4 rfl rfl

/-- Rounding zero to one decimal gives zero. -/
theorem round1_zero : round1 0 = 0 := by
  norm_num [round1, roundHalfEven]

/-- A completed plan without an end date, last updated at time 5. -/
def plano_c7 : PlanoAcao :=
  { id := 1, risco_id := 1, status := StatusAcao.CONCLUIDO, percentual_conclusao := 100,
    data_conclusao := none, atrasado := false, atualizado_em := some 5,
    atualizado_por_id := some 1 }

/-- A session holding only `plano_c7`. -/
def sessao_c7 : Sessao :=
  { riscos := [], historicos := [], planos := [plano_c7], atualizacoes_planos := [] }

/-- Counterexample to C7: on a session whose only completed plan has no end
date, the dashboard reports an on-time completion rate of 100 (the SQL OR
counts a NULL end date as on time), while the rate as the claim words it
(last update timestamp ≤ end date) is 0. -/
theorem claim_C7_counterexample :
    (obter_dashboard_planos sessao_c7 0).taxa_conclusao_prazo = 100 ∧
    taxa_conclusao_prazo_espec sessao_c7 = 0 := by
  constructor
  · show round1 ((((1 : Nat) : ℚ)) / (((1 : Nat) : ℚ)) * 100) = 100
    norm_num [round1, roundHalfEven]
  · show round1 ((((0 : Nat) : ℚ)) / (((1 : Nat) : ℚ)) * 100) = 0
    norm_num [round1, roundHalfEven]

/-- C7 amended: the dashboard's on-time completion rate divides the number
of completed plans whose end date is unset or whose last update timestamp
is at most their end date by the total number of completed plans, as a
percentage rounded to one decimal, and is 0 (not an error) whenever no
completed plan exists. -/
theorem claim_C7_amended (s : Sessao) (agora : Nat) :
    ((∀ p ∈ s.planos, p.status ≠ StatusAcao.CONCLUIDO) →
      (obter_dashboard_planos s agora).taxa_conclusao_prazo = 0) ∧
    (obter_dashboard_planos s agora).taxa_conclusao_prazo =
      (if s.planos.countP (fun p => p.status == StatusAcao.CONCLUIDO) = 0 then 0
       else round1
         (((s.planos.countP (fun p => p.status == StatusAcao.CONCLUIDO &&
             (p.data_conclusao.isNone ||
               (p.atualizado_em.isSome &&
                 decide (p.atualizado_em.getD 0 ≤ p.data_conclusao.getD 0))))) : ℚ) /
           ((s.planos.countP (fun p => p.status == StatusAcao.CONCLUIDO)) : ℚ) * 100)) := by
  have hpred : ∀ p : PlanoAcao,
      (p.status == StatusAcao.CONCLUIDO &&
        (match p.data_conclusao with
         | none => true
         | some dc =>
           match p.atualizado_em with
           | none => false
           | some ae => decide (ae ≤ dc))) =
      (p.status == StatusAcao.CONCLUIDO &&
        (p.data_conclusao.isNone ||
          (p.atualizado_em.isSome &&
            decide (p.atualizado_em.getD 0 ≤ p.data_conclusao.getD 0)))) := by
    rintro ⟨pid, prid, pst, pperc, pdc, patr, pae, papi⟩
    cases pdc <;> cases pae <;> simp
  constructor
  · intro h
    have hfe : s.planos.filter (fun p => p.status == StatusAcao.CONCLUIDO) = [] := by
      refine List.filter_eq_nil_iff.mpr ?_
      intro p hp
      simp [h p hp]
    simp [obter_dashboard_planos, hfe, round1_zero]
  · by_cases htot : (s.planos.filter (fun p => p.status == StatusAcao.CONCLUIDO)).length = 0
    · simp [obter_dashboard_planos, List.countP_eq_length_filter, htot, round1_zero]
    · have hgt : (s.planos.filter (fun p => p.status == StatusAcao.CONCLUIDO)).length > 0 :=
        Nat.pos_of_ne_zero htot
      simp only [obter_dashboard_planos, List.countP_eq_length_filter, htot, if_false, hgt,
        if_true]
      have hnum :
          s.planos.filter (fun p =>
            p.status == StatusAcao.CONCLUIDO &&
              (match p.data_conclusao with
               | none => true
               | some dc =>
                 match p.atualizado_em with
                 | none => false
                 | some ae => decide (ae ≤ dc))) =
          s.planos.filter (fun p =>
            p.status == StatusAcao.CONCLUIDO &&
              (p.data_conclusao.isNone ||
                (p.atualizado_em.isSome &&
                  decide (p.atualizado_em.getD 0 ≤ p.data_conclusao.getD 0)))) := by
        refine List.filter_congr ?_
        intro p _
        exact hpred p
      rw [hnum]

/-- Witness for the amended C7: in the empty session no plan is completed,
the hypothesis is discharged vacuously and the rate is 0. -/
theorem claim_C7_amended_witness :
    (obter_dashboard_planos sessao_vazia 0).taxa_conclusao_prazo = 0 :=
  (claim_C7_amended sessao_vazia 0).1 (by intro p hp; cases hp)

/-- A creation dictionary whose required text fields are all present but
empty. -/
def dados_c8 : RiscoData :=
  { codigo_risco := none, titulo_evento := some "", descricao_evento := some "",
    causas := some "", consequencias := some "",
    probabilidade := some (ProbEntrada.nivel .MEDIA),
    impacto := some (ImpactoEntrada.nivel .MODERADO), criticidade := none }

/-- Counterexample to C8: `criar_risco` succeeds on empty title,
description, causes and consequences instead of failing with a
ValidationError; no validation is performed anywhere in the function. -/
theorem claim_C8_counterexample :
    dados_c8.titulo_evento = some "" ∧
    ∃ s' r, criar_risco sessao_vazia dados_c8 1 50 = Except.ok (s', r) ∧
      r.data_identificacao = some 50 :=
  ⟨rfl, _, _, rfl, rfl⟩

/-- C8 amended: `criar_risco` itself performs no validation.  A required
column that is absent from the dictionary makes the flush fail with the
database NOT NULL error (not an application-level ValidationError); when
the required fields are present — even as empty strings — creation
succeeds, stores them verbatim and sets the identification timestamp to
the creation time. -/
theorem claim_C8_amended (s : Sessao) (d : RiscoData) (uid agora : Nat) :
    ((d.titulo_evento = none ∨ d.descricao_evento = none ∨ d.causas = none ∨
        d.consequencias = none) →
      criar_risco s d uid agora = Except.error ErroBanco.notNull) ∧
    (∀ t de ca co p i,
      d.titulo_evento = some t → d.descricao_evento = some de → d.causas = some ca →
      d.consequencias = some co → d.probabilidade = some p → d.impacto = some i →
      ∃ s' r, criar_risco s d uid agora = Except.ok (s', r) ∧
        r.titulo_evento = t ∧ r.descricao_evento = de ∧ r.causas = ca ∧
        r.consequencias = co ∧ r.data_identificacao = some agora) := by
  rcases d with ⟨cod, ot, ode, oca, oco, opb, oim, ocr⟩
  constructor
  · intro h
    cases ot <;> cases ode <;> cases oca <;> cases oco <;> cases opb <;> cases oim <;>
      cases ocr <;> simp_all [criar_risco]
  · intro t de ca co p i ht hde hca hco hp hi
    simp only at ht hde hca hco hp hi
    subst ht hde hca hco hp hi
    cases ocr <;> exact ⟨_, _, rfl, rfl, rfl, rfl, rfl, rfl⟩

/-- Witness for the amended C8: the success part instantiated on the
all-empty-strings dictionary, every hypothesis discharged by computation:
empty required fields are accepted. -/
theorem claim_C8_amended_witness :
    ∃ s' r, criar_risco sessao_vazia dados_c8 1 50 = Except.ok (s', r) ∧
      r.titulo_evento = "" ∧ r.descricao_evento = "" ∧ r.causas = "" ∧
      r.consequencias = "" ∧ r.data_identificacao = some 50 :=
  (claim_C8_amended sessao_vazia dados_c8 1 50).2 "" "" "" ""
    (ProbEntrada.nivel .MEDIA) (ImpactoEntrada.nivel .MODERADO) rfl rfl rfl rfl rfl rfl

end GerRiscos
